import Mathlib

/-!
Shallow embedding of the server-cleanup pipeline (src/main.py) for checking
the natural-language specification against the code.

Conventions of the embedding:
* machine time and sleep durations are exact rationals (ℚ);
* each remote attempt's classified result is drawn from a schedule
  `res : ℕ → AttemptResult` (attempt index ↦ what the remote call did);
* random jitter values are drawn from a schedule `jit : ℕ → ℚ`;
* the control flow of each wrapper function is translated into a pure
  function returning its result together with the ordered list of
  observable events (permit acquire/release, pacing consultation,
  attempt issue, sleep) it performs.
-/

namespace ServerCleanup

/-- The three operation classes of the pipeline (delete / create / send). -/
inductive OpClass
  | del
  | create
  | send
deriving DecidableEq, Repr

/-- Permit-pool capacities, from `ServerCleanup.__init__`:
`asyncio.Semaphore(10)` (delete), `asyncio.Semaphore(30)` (channel create),
`asyncio.Semaphore(50)` (message send). -/
def capacity : OpClass → ℕ
  | .del => 10
  | .create => 30
  | .send => 50

/-- Classification of what a single remote attempt did, mirroring the
exception branches in the source: success, `HTTPException` with status 429
(rate limited, carrying the `retry_after` hint), status 404 (not found),
status in `[500, 502, 503, 504]` (server error), any other HTTP status
(client error), or a non-HTTP exception (unexpected). -/
inductive AttemptResult
  | success
  | rateLimited (retryAfter : ℚ)
  | notFound
  | serverError
  | clientError
  | unexpected
deriving DecidableEq, Repr

/-- Observable events of one wrapped operation. -/
inductive Event
  | acquire (c : OpClass)
  | release (c : OpClass)
  | pace (c : OpClass)
  | attempt (c : OpClass) (i : ℕ)
  | sleep (d : ℚ)
deriving DecidableEq, Repr

def isAttempt : Event → Bool
  | .attempt _ _ => true
  | _ => false

def isPace : Event → Bool
  | .pace _ => true
  | _ => false

def isAcquire : Event → Bool
  | .acquire _ => true
  | _ => false

def isRelease : Event → Bool
  | .release _ => true
  | _ => false

def attemptCount (t : List Event) : ℕ := t.countP isAttempt

def paceCount (t : List Event) : ℕ := t.countP isPace

def acquireCount (t : List Event) : ℕ := t.countP isAcquire

def releaseCount (t : List Event) : ℕ := t.countP isRelease

/-- The loop body of `ServerCleanup.delete_with_retry`.  `fuel` is the number
of loop iterations that remain, so the current attempt index is
`maxRetries - fuel` when `fuel` iterations remain out of `maxRetries`.
Faithful to the source:
* the semaphore is acquired and released around each individual attempt
  (`async with self.semaphore` is inside the `for` loop);
* status 429 sleeps `retry_after` and retries;
* status 404 returns `True` immediately;
* any other `HTTPException` and any unexpected exception return `False`
  only when `attempt == max_retries - 1`, otherwise fall through to
  `await asyncio.sleep(0.5)` and retry;
* after the 429 sleep the code also falls through to the same 0.5 s sleep;
* running out of iterations returns `False`. -/
def deleteLoop (res : ℕ → AttemptResult) (maxRetries : ℕ) : ℕ → Bool × List Event
  | 0 => (false, [])
  | fuel + 1 =>
    let i := maxRetries - (fuel + 1)
    let ev : List Event := [.acquire .del, .attempt .del i, .release .del]
    match res i with
    | .success => (true, ev)
    | .notFound => (true, ev)
    | .rateLimited t =>
      let r := deleteLoop res maxRetries fuel
      (r.1, ev ++ [.sleep t, .sleep (1/2)] ++ r.2)
    | .serverError =>
      if fuel = 0 then (false, ev)
      else
        let r := deleteLoop res maxRetries fuel
        (r.1, ev ++ [.sleep (1/2)] ++ r.2)
    | .clientError =>
      if fuel = 0 then (false, ev)
      else
        let r := deleteLoop res maxRetries fuel
        (r.1, ev ++ [.sleep (1/2)] ++ r.2)
    | .unexpected =>
      if fuel = 0 then (false, ev)
      else
        let r := deleteLoop res maxRetries fuel
        (r.1, ev ++ [.sleep (1/2)] ++ r.2)

/-- `ServerCleanup.delete_with_retry` with its default `max_retries = 3`. -/
def deleteWithRetry (res : ℕ → AttemptResult) : Bool × List Event :=
  deleteLoop res 3 3

/-- The retry loop of `ServerCleanup.create_single_channel` (inside the
semaphore scope, after the single `smart_delay` call).  Faithful to the
source: 429 sleeps `retry_after + jitter` and retries; statuses
500/502/503/504 sleep `2 ** attempt + jitter` and retry; any other HTTP
status and any unexpected exception return `None` immediately; running out
of the 5 attempts returns `None`. -/
def createLoop (res : ℕ → AttemptResult) (jit : ℕ → ℚ) (maxRetries : ℕ) :
    ℕ → Bool × List Event
  | 0 => (false, [])
  | fuel + 1 =>
    let i := maxRetries - (fuel + 1)
    let ev : List Event := [.attempt .create i]
    match res i with
    | .success => (true, ev)
    | .rateLimited t =>
      let r := createLoop res jit maxRetries fuel
      (r.1, ev ++ [.sleep (t + jit i)] ++ r.2)
    | .serverError =>
      let r := createLoop res jit maxRetries fuel
      (r.1, ev ++ [.sleep ((2 : ℚ) ^ i + jit i)] ++ r.2)
    | .notFound => (false, ev)
    | .clientError => (false, ev)
    | .unexpected => (false, ev)

/-- `ServerCleanup.create_single_channel`: the whole operation runs inside
`async with self.channel_semaphore`, calls `smart_delay('channel')` once,
then runs the 5-attempt retry loop; the permit is released when the
function exits, whatever the outcome. -/
def createSingleChannel (res : ℕ → AttemptResult) (jit : ℕ → ℚ) : Bool × List Event :=
  let r := createLoop res jit 5 5
  (r.1, [.acquire .create, .pace .create] ++ r.2 ++ [.release .create])

/-- The retry loop of `ServerCleanup.send_message_to_channel` (inside the
semaphore scope, after the single `smart_delay` call).  Faithful to the
source: 429 sleeps `retry_after * 0.7 + jitter` and retries; statuses
500/502/503/504 sleep `1.5 ** attempt + jitter` and retry; any other HTTP
status and any unexpected exception return `False` immediately; running
out of the 3 attempts returns `False`. -/
def sendLoop (res : ℕ → AttemptResult) (jit : ℕ → ℚ) (maxRetries : ℕ) :
    ℕ → Bool × List Event
  | 0 => (false, [])
  | fuel + 1 =>
    let i := maxRetries - (fuel + 1)
    let ev : List Event := [.attempt .send i]
    match res i with
    | .success => (true, ev)
    | .rateLimited t =>
      let r := sendLoop res jit maxRetries fuel
      (r.1, ev ++ [.sleep (t * (7/10) + jit i)] ++ r.2)
    | .serverError =>
      let r := sendLoop res jit maxRetries fuel
      (r.1, ev ++ [.sleep ((3/2 : ℚ) ^ i + jit i)] ++ r.2)
    | .notFound => (false, ev)
    | .clientError => (false, ev)
    | .unexpected => (false, ev)

/-- `ServerCleanup.send_message_to_channel`: the whole operation runs inside
`async with self.message_semaphore`, calls `smart_delay('message')` once,
then runs the 3-attempt retry loop; the permit is released when the
function exits, whatever the outcome. -/
def sendMessageToChannel (res : ℕ → AttemptResult) (jit : ℕ → ℚ) : Bool × List Event :=
  let r := sendLoop res jit 3 3
  (r.1, [.acquire .send, .pace .send] ++ r.2 ++ [.release .send])

/-- The two pacing classes of `ServerCleanup.smart_delay`: the function
receives the string `'channel'` or `'message'` and branches on
`operation_type == 'channel'`. -/
inductive PaceType
  | channel
  | message
deriving DecidableEq, Repr

/-- Minimum inter-dispatch interval of `smart_delay`: 0.1 s for
`'channel'`, 0.02 s for everything else (`'message'`). -/
def minInterval : PaceType → ℚ
  | .channel => 1/10
  | .message => 1/50

/-- The sleep duration computed by one call to `smart_delay`, given the
observed `self.last_request_time` (`last`), the current time (`now`) and the
drawn `random.uniform(0, 0.01)` jitter: sleep
`min_interval - (now - last) + jitter` when `now - last < min_interval`,
otherwise do not sleep. -/
def smartDelaySleep (op : PaceType) (last now jitter : ℚ) : ℚ :=
  if now - last < minInterval op then minInterval op - (now - last) + jitter else 0

/-- The time at which one call to `smart_delay` returns (= the value it
stores into `self.last_request_time`, since the store happens right after
the sleep): the caller dispatches its remote attempt at this time. -/
def smartDelayFinish (op : PaceType) (last now jitter : ℚ) : ℚ :=
  now + smartDelaySleep op last now jitter

/-- Two concurrent calls to `smart_delay` for the same class, interleaved
by the event loop.  Task A reads `last_request_time = last0` at time `a`;
task B reads at time `b` with `a ≤ b`.  In the source the read of
`self.last_request_time`, the `await asyncio.sleep(...)` and the write
`self.last_request_time = time.time()` are separated by a suspension
point whenever a sleep is needed, so A's write only lands at A's finish
time: if B's read at `b` happens before that write (`b < finishA`), B
still observes `last0`; otherwise B observes A's write.  Returns the two
dispatch (finish) times.  Jitter drawn as 0 for both tasks is the
"ignoring jitter" reading of the spec. -/
def twoTaskDispatches (op : PaceType) (last0 a b jA jB : ℚ) : ℚ × ℚ :=
  let fA := smartDelayFinish op last0 a jA
  let lastB := if b < fA then last0 else fA
  (fA, smartDelayFinish op lastB b jB)

/-- State of the three permit pools: how many tasks currently hold a
permit of each class. -/
structure GateState where
  held : OpClass → ℕ

/-- At pipeline start no permit is held. -/
def initGate : GateState := ⟨fun _ => 0⟩

/-- One transition of the permit pools, with `asyncio.Semaphore` semantics:
`acquire` only proceeds when the pool still has a free permit (otherwise
the task stays suspended and no transition happens), `release` returns a
held permit. -/
inductive GateStep : GateState → GateState → Prop
  | acquire (c : OpClass) (s : GateState) (h : s.held c < capacity c) :
      GateStep s ⟨Function.update s.held c (s.held c + 1)⟩
  | release (c : OpClass) (s : GateState) (h : 0 < s.held c) :
      GateStep s ⟨Function.update s.held c (s.held c - 1)⟩

/-- Gate states reachable from pipeline start by any interleaving of
acquires and releases. -/
inductive GateReachable : GateState → Prop
  | init : GateReachable initGate
  | step {s t : GateState} : GateReachable s → GateStep s t → GateReachable t

/-- A guild role as `delete_roles` sees it: display name, whether it is
managed by an integration, and its hierarchy position. -/
structure Role where
  name : String
  managed : Bool
  position : ℕ
deriving DecidableEq, Repr

/-- The role comparison `role < self.guild.me.top_role` used by the
source: the collaborator library orders roles by hierarchy position. -/
def roleBelow (r top : Role) : Bool := r.position < top.position

/-- The sort order of `delete_roles`:
`sort(key=lambda r: r.position, reverse=True)` places `a` before `b` when
`b.position ≤ a.position`. -/
def roleOrd (a b : Role) : Bool := b.position ≤ a.position

/-- `ServerCleanup.delete_roles` selection and ordering: keep the roles
whose name is not `"@everyone"`, that are not managed, and that sit below
the caller's top role; then sort by position, highest first. -/
def rolesToDelete (roles : List Role) (top : Role) : List Role :=
  (roles.filter fun r =>
      (r.name != "@everyone") && (!r.managed) && roleBelow r top).mergeSort roleOrd

/-- The 50-entry `channel_names` vocabulary of
`create_announcement_channels`, verbatim. -/
def channelNames : List String :=
  ["general", "announcements", "updates", "important", "news",
   "server-updates", "community", "chat", "discussion", "main",
   "info", "notices", "alerts", "welcome", "lobby",
   "hangout", "lounge", "social", "random", "misc",
   "off-topic", "casual", "talk", "voice-chat", "gaming",
   "memes", "media", "sharing", "events", "activities",
   "questions", "help", "support", "feedback", "suggestions",
   "rules", "guidelines", "moderation", "admin", "staff",
   "bots", "commands", "music", "voice", "stream",
   "art", "creative", "showcase", "projects", "collaboration"]

/-- The 100 requested names built by `create_announcement_channels`:
`channel_names[i % len]`, and for `i >= len` the suffixed
`f"{name}-{i // len + 1}"`. -/
def channelsToCreate : List String :=
  (List.range 100).map fun i =>
    let base := channelNames.getD (i % channelNames.length) ""
    if channelNames.length ≤ i then
      base ++ "-" ++ toString (i / channelNames.length + 1)
    else base

/-- The creation phase of `create_announcement_channels`: batches of 10
(`for batch_num in range(0, 100, 10)`), each batch's results gathered and
filtered down to the successfully created channels, all batches' survivors
concatenated into `all_channels` in order.  `res i` is what the `i`-th
Create task produced (`some c` on success, `none` when
`create_single_channel` returned `None`). -/
def createPhase {α : Type} (res : ℕ → Option α) : List α :=
  (List.range 10).flatMap fun b =>
    ((List.range 10).map fun k => res (b * 10 + k)).filterMap id

/-- The flood phase's Send tasks: `for wave in range(20)`, one Send task
per created channel per wave.  The task list is built from `all_channels`
alone — earlier waves' per-task successes or failures are gathered with
`return_exceptions=True` and discarded, so they do not influence later
waves. -/
def floodTasks {α : Type} (created : List α) : List (ℕ × α) :=
  (List.range 20).flatMap fun w => created.map fun c => (w, c)

/-- Outcome of provisioning after the creation phase has resolved. -/
inductive ProvisionOutcome (α : Type)
  | aborted
  | flooded (tasks : List (ℕ × α))
deriving DecidableEq, Repr

/-- `create_announcement_channels` after the creation phase: `if not
all_channels: ... return` (the spec's `ProvisioningAborted`), otherwise run
the 20-wave flood. -/
def provisionAfterCreation {α : Type} (created : List α) : ProvisionOutcome α :=
  if created.isEmpty then .aborted else .flooded (floodTasks created)

/-- Number of Send tasks a provisioning outcome issues. -/
def sendTasksIssued {α : Type} : ProvisionOutcome α → ℕ
  | .aborted => 0
  | .flooded tasks => tasks.length

/-- A deletion phase (`delete_channels` / `delete_roles` / `delete_emojis`
/ `delete_webhooks` bodies): one `delete_with_retry` task per inventory
item, gathered; each task resolves to one boolean. -/
def deletePhase {ι : Type} (items : List ι) (resFor : ι → ℕ → AttemptResult) : List Bool :=
  items.map fun it => (deleteWithRetry (resFor it)).1

/-- Modelled from the spec: `OperationReport` — absent from the code,
which only logs outcomes — counts `{succeeded, failed}` by incrementing
once per resolved task. -/
def reportCounts (results : List Bool) : ℕ × ℕ :=
  (results.count true, results.count false)

/-- Pipeline-level errors the webhook-listing call can raise. -/
inductive PipelineErr
  | forbidden
  | other
deriving DecidableEq, Repr

/-- `ServerCleanup.delete_webhooks`: `await self.guild.webhooks()` may
raise; `except discord.Forbidden` is caught and only logs a warning, so
the function returns normally with no delete task dispatched; any other
exception propagates.  On a successful listing one delete task per webhook
is dispatched.  Returns the number of delete tasks dispatched. -/
def deleteWebhooks {ω : Type} (listing : Except PipelineErr (List ω)) :
    Except PipelineErr ℕ :=
  match listing with
  | .ok ws => .ok ws.length
  | .error .forbidden => .ok 0
  | .error e => .error e

/-- The teardown phases of `cleanup_server`, in source order. -/
inductive Phase
  | webhooks
  | emoji
  | roles
  | channels
deriving DecidableEq, Repr

/-- The phases `cleanup_server` runs to completion, as a function of how
the webhook listing behaved: the body runs webhooks, then emoji, then
roles, then channels; an exception escaping `delete_webhooks` is caught by
the surrounding `try` of `cleanup_server`, which skips the remaining
phases. -/
def cleanupPhases {ω : Type} (listing : Except PipelineErr (List ω)) : List Phase :=
  match deleteWebhooks listing with
  | .ok _ => [.webhooks, .emoji, .roles, .channels]
  | .error _ => [.webhooks]

/-! ### Helper lemmas on the event traces of the three wrapped operations -/

/-- The create retry loop emits no pacing, acquire or release events:
those happen only in the wrapper, outside the loop. -/
theorem createLoop_gate_events (res : ℕ → AttemptResult) (jit : ℕ → ℚ) (m : ℕ) :
    ∀ fuel, paceCount (createLoop res jit m fuel).2 = 0
      ∧ acquireCount (createLoop res jit m fuel).2 = 0
      ∧ releaseCount (createLoop res jit m fuel).2 = 0
  | 0 => by simp [createLoop, paceCount, acquireCount, releaseCount]
  | fuel + 1 => by
    have ih := createLoop_gate_events res jit m fuel
    cases h : res (m - (fuel + 1)) <;>
      simp_all [createLoop, h, paceCount, acquireCount, releaseCount,
        List.countP_append, List.countP_cons, isPace, isAcquire, isRelease]

/-- The send retry loop emits no pacing, acquire or release events. -/
theorem sendLoop_gate_events (res : ℕ → AttemptResult) (jit : ℕ → ℚ) (m : ℕ) :
    ∀ fuel, paceCount (sendLoop res jit m fuel).2 = 0
      ∧ acquireCount (sendLoop res jit m fuel).2 = 0
      ∧ releaseCount (sendLoop res jit m fuel).2 = 0
  | 0 => by simp [sendLoop, paceCount, acquireCount, releaseCount]
  | fuel + 1 => by
    have ih := sendLoop_gate_events res jit m fuel
    cases h : res (m - (fuel + 1)) <;>
      simp_all [sendLoop, h, paceCount, acquireCount, releaseCount,
        List.countP_append, List.countP_cons, isPace, isAcquire, isRelease]

/-- In the delete loop every attempt is wrapped in its own
acquire/release pair, and no pacing event ever occurs. -/
theorem deleteLoop_gate_events (res : ℕ → AttemptResult) (m : ℕ) :
    ∀ fuel, paceCount (deleteLoop res m fuel).2 = 0
      ∧ acquireCount (deleteLoop res m fuel).2 = attemptCount (deleteLoop res m fuel).2
      ∧ releaseCount (deleteLoop res m fuel).2 = attemptCount (deleteLoop res m fuel).2
  | 0 => by simp [deleteLoop, paceCount, acquireCount, releaseCount, attemptCount]
  | fuel + 1 => by
    have ih := deleteLoop_gate_events res m fuel
    cases h : res (m - (fuel + 1)) <;>
      [skip; skip; skip; (cases Nat.eq_zero_or_pos fuel); (cases Nat.eq_zero_or_pos fuel);
        (cases Nat.eq_zero_or_pos fuel)] <;>
      simp_all [deleteLoop, h, paceCount, acquireCount, releaseCount, attemptCount,
        List.countP_append, List.countP_cons, isPace, isAcquire, isRelease, isAttempt,
        Nat.pos_iff_ne_zero]

/-! ### C1 -/

/-- A delete schedule whose first attempt fails with a permanent client
error (an HTTP status other than 429/404, e.g. 403) and whose second
attempt succeeds. -/
def c1Schedule : ℕ → AttemptResult := fun i =>
  if i = 0 then .clientError else .success

/-- C1 counterexample: a Delete operation whose first attempt is
classified as a permanent client error is NOT abandoned immediately —
`delete_with_retry` issues a second attempt (which here succeeds, so the
operation even returns success), contradicting "abandons the operation
immediately … and issues no further attempts … for all three operation
kinds (Delete, Create, Send) and at every attempt index". -/
theorem c1_counterexample :
    (deleteWithRetry c1Schedule).1 = true
    ∧ attemptCount (deleteWithRetry c1Schedule).2 = 2 := by
  constructor <;> rfl

/-- C1 (amended): for Create and Send, a permanent client error or an
unexpected error at any attempt index abandons the operation immediately —
the loop ends in failure with exactly that one further attempt.  For
Delete, permanent classifications are instead retried until the attempt
budget runs out: a schedule that always classifies as permanent consumes
all 3 attempts and only then resolves as failed. -/
theorem c1_theorem (res : ℕ → AttemptResult) (jit : ℕ → ℚ) (m fuel : ℕ)
    (hperm : res (m - (fuel + 1)) = .clientError ∨ res (m - (fuel + 1)) = .unexpected) :
    ((createLoop res jit m (fuel + 1)).1 = false
      ∧ attemptCount (createLoop res jit m (fuel + 1)).2 = 1)
    ∧ ((sendLoop res jit m (fuel + 1)).1 = false
      ∧ attemptCount (sendLoop res jit m (fuel + 1)).2 = 1)
    ∧ ((∀ i, res i = .clientError ∨ res i = .unexpected) →
        (deleteWithRetry res).1 = false
        ∧ attemptCount (deleteWithRetry res).2 = 3) := by
  refine ⟨?_, ?_, ?_⟩
  · rcases hperm with h | h <;>
      simp [createLoop, h, attemptCount, List.countP_cons, isAttempt]
  · rcases hperm with h | h <;>
      simp [sendLoop, h, attemptCount, List.countP_cons, isAttempt]
  · intro hall
    rcases hall 0 with h0 | h0 <;> rcases hall 1 with h1 | h1 <;>
      rcases hall 2 with h2 | h2 <;>
      simp [deleteWithRetry, deleteLoop, h0, h1, h2, attemptCount,
        List.countP_append, List.countP_cons, isAttempt]

/-- A schedule on which every attempt classifies as a permanent client
error. -/
def allPermSchedule : ℕ → AttemptResult := fun _ => .clientError

/-- A jitter schedule that always draws zero. -/
def zeroJitter : ℕ → ℚ := fun _ => 0

/-- C1 witness. -/
theorem c1_witness :
    ((createLoop allPermSchedule zeroJitter 5 5).1 = false
      ∧ attemptCount (createLoop allPermSchedule zeroJitter 5 5).2 = 1)
    ∧ ((sendLoop allPermSchedule zeroJitter 5 5).1 = false
      ∧ attemptCount (sendLoop allPermSchedule zeroJitter 5 5).2 = 1)
    ∧ ((∀ i, allPermSchedule i = .clientError ∨ allPermSchedule i = .unexpected) →
        (deleteWithRetry allPermSchedule).1 = false
        ∧ attemptCount (deleteWithRetry allPermSchedule).2 = 3) :=
  c1_theorem allPermSchedule zeroJitter 5 4 (Or.inl rfl)

/-! ### C2 -/

/-- A create schedule whose first attempt hits a transient server error
and whose second attempt succeeds: the operation issues two attempts. -/
def c2Schedule : ℕ → AttemptResult := fun i =>
  if i = 0 then .serverError else .success

/-- C2 counterexample: a Create operation that issues two attempts
consults the pacer only once and acquires a permit only once — the pacer
is NOT consulted, nor a permit acquired, before each individual attempt;
both happen merely once per operation. -/
theorem c2_counterexample :
    attemptCount (createSingleChannel c2Schedule (fun _ => 0)).2 = 2
    ∧ paceCount (createSingleChannel c2Schedule (fun _ => 0)).2 = 1
    ∧ acquireCount (createSingleChannel c2Schedule (fun _ => 0)).2 = 1 := by
  refine ⟨rfl, rfl, rfl⟩

/-- The last element of a trace of the shape `x :: y :: (l ++ [z])`. -/
theorem getLast?_cons_cons_concat {α : Type} (l : List α) (x y z : α) :
    (x :: y :: (l ++ [z])).getLast? = some z := by
  rw [show x :: y :: (l ++ [z]) = (x :: y :: l) ++ [z] by simp]
  exact List.getLast?_concat _

/-- C2 (amended): for Create and Send the permit is acquired once per
operation — the trace starts with the acquire, the single pacing
consultation follows, and the permit is released as the very last event,
whether the operation succeeded or failed, with all attempts inside that
one scope.  Only Delete acquires and releases a permit around each
individual attempt, and Delete never consults the pacer. -/
theorem c2_theorem (res : ℕ → AttemptResult) (jit : ℕ → ℚ) :
    (paceCount (createSingleChannel res jit).2 = 1
      ∧ acquireCount (createSingleChannel res jit).2 = 1
      ∧ releaseCount (createSingleChannel res jit).2 = 1
      ∧ (createSingleChannel res jit).2.head? = some (.acquire .create)
      ∧ (createSingleChannel res jit).2.getLast? = some (.release .create))
    ∧ (paceCount (sendMessageToChannel res jit).2 = 1
      ∧ acquireCount (sendMessageToChannel res jit).2 = 1
      ∧ releaseCount (sendMessageToChannel res jit).2 = 1
      ∧ (sendMessageToChannel res jit).2.head? = some (.acquire .send)
      ∧ (sendMessageToChannel res jit).2.getLast? = some (.release .send))
    ∧ (paceCount (deleteWithRetry res).2 = 0
      ∧ acquireCount (deleteWithRetry res).2 = attemptCount (deleteWithRetry res).2
      ∧ releaseCount (deleteWithRetry res).2 = attemptCount (deleteWithRetry res).2) := by
  obtain ⟨hcp, hca, hcr⟩ := createLoop_gate_events res jit 5 5
  obtain ⟨hsp, hsa, hsr⟩ := sendLoop_gate_events res jit 3 3
  obtain ⟨hdp, hda, hdr⟩ := deleteLoop_gate_events res 3 3
  refine ⟨⟨?_, ?_, ?_, ?_, ?_⟩, ⟨?_, ?_, ?_, ?_, ?_⟩, hdp, hda, hdr⟩
  · simp_all [createSingleChannel, paceCount, List.countP_append, List.countP_cons, isPace]
  · simp_all [createSingleChannel, acquireCount, List.countP_append, List.countP_cons,
      isAcquire]
  · simp_all [createSingleChannel, releaseCount, List.countP_append, List.countP_cons,
      isRelease]
  · simp [createSingleChannel]
  · simp only [createSingleChannel, List.cons_append, List.nil_append]
    exact getLast?_cons_cons_concat _ _ _ _
  · simp_all [sendMessageToChannel, paceCount, List.countP_append, List.countP_cons, isPace]
  · simp_all [sendMessageToChannel, acquireCount, List.countP_append, List.countP_cons,
      isAcquire]
  · simp_all [sendMessageToChannel, releaseCount, List.countP_append, List.countP_cons,
      isRelease]
  · simp [sendMessageToChannel]
  · simp only [sendMessageToChannel, List.cons_append, List.nil_append]
    exact getLast?_cons_cons_concat _ _ _ _

/-! ### C3 -/

/-- C3: in every state the pipeline can reach by any interleaving of
permit acquisitions and releases, the number of tasks holding a permit of
a class never exceeds that class's capacity: at most 10 concurrent Delete,
30 concurrent Create, 50 concurrent Send attempts. -/
theorem c3_theorem (s : GateState) (hs : GateReachable s) (c : OpClass) :
    s.held c ≤ capacity c := by
  induction hs with
  | init => cases c <;> simp [initGate, capacity]
  | step _ hstep ih =>
    cases hstep with
    | acquire c' s' h =>
      by_cases hc : c = c'
      · subst hc
        simpa using h
      · simpa [Function.update_apply, hc] using ih
    | release c' s' h =>
      by_cases hc : c = c'
      · subst hc
        simp only [Function.update_same]
        omega
      · simpa [Function.update_apply, hc] using ih

/-- C3 witness. -/
theorem c3_witness : initGate.held OpClass.del ≤ capacity OpClass.del :=
  c3_theorem initGate GateReachable.init OpClass.del

/-! ### C4 -/

/-- C4 counterexample: two concurrent Send-class tasks interleaved through
`smart_delay` dispatch at the very same instant — the gap between the two
dispatches is 0, strictly less than the 0.02 s minimum interval — because
the second task reads `last_request_time` while the first is still inside
its pacing sleep.  Task A enters at time 0 with `last_request_time = 0`;
task B enters at time 0.01; both jitters are drawn as 0. -/
theorem c4_counterexample :
    (twoTaskDispatches .message 0 0 (1/100) 0 0).2
        - (twoTaskDispatches .message 0 0 (1/100) 0 0).1 = 0
    ∧ (0 : ℚ) < minInterval .message := by
  constructor
  · norm_num [twoTaskDispatches, smartDelayFinish, smartDelaySleep, minInterval]
  · norm_num [minInterval]

/-- C4 (amended): for sequential dispatches of a paced class — each
`smart_delay` call completing (and storing its dispatch time into
`last_request_time`) before the next one starts — any call observing the
previous dispatch time `last` finishes, and hence dispatches, no earlier
than `last + minInterval` (Create = 0.1 s, Send = 0.02 s), for every
non-negative jitter draw.  The guarantee does not extend to concurrent
interleavings (see the counterexample). -/
theorem c4_theorem (op : PaceType) (last now j : ℚ) (hj : 0 ≤ j) :
    last + minInterval op ≤ smartDelayFinish op last now j := by
  unfold smartDelayFinish smartDelaySleep
  split
  · linarith
  · linarith [not_lt.mp (by assumption : ¬now - last < minInterval op)]

/-- C4 witness. -/
theorem c4_witness : (0 : ℚ) + minInterval .message ≤ smartDelayFinish .message 0 0 0 :=
  c4_theorem .message 0 0 0 le_rfl

/-! ### C5 -/

/-- C5: with the caller's top role at hierarchy position 5 and all role
positions distinct, the selection of `delete_roles` contains exactly the
roles that are not the everyone role, not managed, and at position
strictly below 5, and the selected roles are ordered by strictly
descending hierarchy position. -/
theorem c5_theorem (roles : List Role) (top : Role) (htop : top.position = 5)
    (hpos : (roles.map Role.position).Nodup) :
    (∀ r, r ∈ rolesToDelete roles top ↔
        r ∈ roles ∧ r.name ≠ "@everyone" ∧ r.managed = false ∧ r.position < 5)
    ∧ List.Pairwise (fun a b => b.position < a.position) (rolesToDelete roles top) := by
  have htrans : ∀ a b c : Role, roleOrd a b = true → roleOrd b c = true →
      roleOrd a c = true := by
    intro a b c hab hbc
    simp only [roleOrd, decide_eq_true_iff] at *
    omega
  have htotal : ∀ a b : Role, (roleOrd a b || roleOrd b a) = true := by
    intro a b
    simp only [roleOrd, Bool.or_eq_true, decide_eq_true_iff]
    omega
  constructor
  · intro r
    simp [rolesToDelete, List.mem_mergeSort, List.mem_filter, roleBelow, htop,
      and_assoc, bne_iff_ne, Bool.and_eq_true, Bool.not_eq_true']
  · have hsorted := List.sorted_mergeSort htrans htotal
      (roles.filter fun r => (r.name != "@everyone") && (!r.managed) && roleBelow r top)
    have hperm := List.mergeSort_perm
      (roles.filter fun r => (r.name != "@everyone") && (!r.managed) && roleBelow r top)
      roleOrd
    have hfil : (roles.filter fun r =>
        (r.name != "@everyone") && (!r.managed) && roleBelow r top).Sublist roles :=
      List.filter_sublist _
    have hnd_fil := hpos.sublist (hfil.map Role.position)
    have hpair_fil : (roles.filter fun r =>
        (r.name != "@everyone") && (!r.managed) && roleBelow r top).Pairwise
        (fun a b => a.position ≠ b.position) := List.pairwise_map.mp hnd_fil
    have hpair_sorted : (rolesToDelete roles top).Pairwise
        (fun a b => a.position ≠ b.position) :=
      (hperm.pairwise_iff fun h => Ne.symm h).mpr hpair_fil
    refine (hsorted.and hpair_sorted).imp ?_
    intro a b hab
    obtain ⟨h1, h2⟩ := hab
    simp only [roleOrd, decide_eq_true_iff] at h1
    omega

/-- A concrete guild for the C5 witness: the everyone role, three
ordinary roles, one managed role, one role above the caller. -/
def c5Roles : List Role :=
  [⟨"@everyone", false, 0⟩, ⟨"member", false, 1⟩, ⟨"mod", false, 3⟩,
   ⟨"bot", true, 4⟩, ⟨"admin", false, 6⟩]

/-- The caller's top role for the C5 witness, at position 5. -/
def c5Top : Role := ⟨"caller-top", false, 5⟩

/-- C5 witness. -/
theorem c5_witness :
    (∀ r, r ∈ rolesToDelete c5Roles c5Top ↔
        r ∈ c5Roles ∧ r.name ≠ "@everyone" ∧ r.managed = false ∧ r.position < 5)
    ∧ List.Pairwise (fun a b => b.position < a.position) (rolesToDelete c5Roles c5Top) :=
  c5_theorem c5Roles c5Top rfl (by decide)

/-! ### C6 -/

/-- C6: if the creation phase resolves with exactly 73 created channels,
the flood phase issues exactly 73 × 20 = 1460 Send tasks, and every
created channel is targeted in every one of the 20 waves.  The task list
is built from the created channels alone, so no Send failure (discarded
by `gather(..., return_exceptions=True)`) removes a channel from later
waves. -/
theorem c6_theorem {α : Type} (res : ℕ → Option α)
    (h : (createPhase res).length = 73) :
    sendTasksIssued (provisionAfterCreation (createPhase res)) = 1460
    ∧ ∀ w, w < 20 → ∀ c ∈ createPhase res, (w, c) ∈ floodTasks (createPhase res) := by
  constructor
  · have hne : (createPhase res).isEmpty = false := by
      cases hc : createPhase res
      · simp [hc] at h
      · simp
    simp only [provisionAfterCreation, hne, Bool.false_eq_true, if_false, sendTasksIssued,
      floodTasks, List.length_flatMap]
    have hconst : (List.length ∘ fun w : ℕ => List.map (fun c => (w, c)) (createPhase res))
        = fun _ => 73 := by
      funext w
      simp [h]
    rw [hconst]
    simp [List.map_const', List.sum_replicate]
  · intro w hw c hc
    simp only [floodTasks, List.mem_flatMap, List.mem_range, List.mem_map]
    exact ⟨w, hw, c, hc, rfl⟩

/-- A creation-result schedule for the C6 witness: the first 73 Create
tasks succeed, the rest fail. -/
def partialCreate : ℕ → Option ℕ := fun i => if i < 73 then some i else none

/-- C6 witness. -/
theorem c6_witness :
    sendTasksIssued (provisionAfterCreation (createPhase partialCreate)) = 1460
    ∧ ∀ w, w < 20 → ∀ c ∈ createPhase partialCreate,
        (w, c) ∈ floodTasks (createPhase partialCreate) :=
  c6_theorem partialCreate (by decide)

/-! ### C7 -/

set_option maxRecDepth 40000 in
/-- C7: the creation phase requests exactly 100 names; the names at
indices 0..49 are the base vocabulary entries unsuffixed, the names at
indices 50..99 carry the `-2` suffix, and all 100 names are pairwise
distinct. -/
theorem c7_theorem :
    channelsToCreate.length = 100
    ∧ (∀ i, i < 50 → channelsToCreate.getD i "" = channelNames.getD i "")
    ∧ (∀ i, 50 ≤ i → i < 100 →
        channelsToCreate.getD i "" = channelNames.getD (i - 50) "" ++ "-2")
    ∧ channelsToCreate.Nodup :=
  ⟨by decide, by decide, by decide, by decide⟩

/-! ### C8 -/

/-- C8: when every one of the 100 Create tasks fails, the created-channel
list is empty, provisioning aborts (the spec's `ProvisioningAborted`), and
zero Send tasks are issued. -/
theorem c8_theorem {α : Type} (res : ℕ → Option α) (h : ∀ i, i < 100 → res i = none) :
    provisionAfterCreation (createPhase res) = ProvisionOutcome.aborted
    ∧ sendTasksIssued (provisionAfterCreation (createPhase res)) = 0 := by
  have hempty : createPhase res = [] := by
    rw [List.eq_nil_iff_forall_not_mem]
    intro a ha
    simp only [createPhase, List.mem_flatMap, List.mem_range, List.mem_filterMap,
      List.mem_map, id_eq] at ha
    obtain ⟨b, hb, x, ⟨k, hk, hx⟩, hid⟩ := ha
    rw [← hx, h (b * 10 + k) (by omega)] at hid
    cases hid
  rw [hempty]
  exact ⟨rfl, rfl⟩

/-- C8 witness. -/
theorem c8_witness :
    provisionAfterCreation (createPhase (fun _ => (none : Option ℕ)))
        = ProvisionOutcome.aborted
    ∧ sendTasksIssued (provisionAfterCreation (createPhase (fun _ => (none : Option ℕ))))
        = 0 :=
  c8_theorem (fun _ => none) (fun _ _ => rfl)

/-! ### C9 -/

/-- Over booleans, counting `true`s and `false`s exhausts the list. -/
theorem count_true_add_count_false (l : List Bool) :
    l.count true + l.count false = l.length := by
  induction l with
  | nil => rfl
  | cons a t ih => cases a <;> simp [List.count_cons] <;> omega

/-- C9: a delete whose first attempt is classified `AlreadyAbsent`
(HTTP 404) immediately resolves as success after exactly one attempt —
no retry is issued — and a deletion phase over any inventory produces
exactly one counted task per resource, so the report counts each resource
exactly once. -/
theorem c9_theorem (res : ℕ → AttemptResult) (h : res 0 = .notFound)
    {ι : Type} (items : List ι) (resFor : ι → ℕ → AttemptResult) :
    (deleteWithRetry res).1 = true
    ∧ attemptCount (deleteWithRetry res).2 = 1
    ∧ (reportCounts (deletePhase items resFor)).1
        + (reportCounts (deletePhase items resFor)).2 = items.length := by
  refine ⟨?_, ?_, ?_⟩
  · simp [deleteWithRetry, deleteLoop, h]
  · simp [deleteWithRetry, deleteLoop, h, attemptCount, List.countP_cons, isAttempt]
  · show (deletePhase items resFor).count true + (deletePhase items resFor).count false = _
    rw [count_true_add_count_false]
    simp [deletePhase]

/-- A schedule on which the first delete attempt finds the resource
already absent. -/
def absentSchedule : ℕ → AttemptResult := fun _ => .notFound

/-- C9 witness. -/
theorem c9_witness :
    (deleteWithRetry absentSchedule).1 = true
    ∧ attemptCount (deleteWithRetry absentSchedule).2 = 1
    ∧ (reportCounts (deletePhase [0, 1] (fun _ => absentSchedule))).1
        + (reportCounts (deletePhase [0, 1] (fun _ => absentSchedule))).2
        = ([0, 1] : List ℕ).length :=
  c9_theorem absentSchedule rfl [0, 1] (fun _ => absentSchedule)

/-! ### C10 -/

/-- C10: when listing the space's webhooks fails with permission denied,
`delete_webhooks` swallows the error (returning normally with zero delete
tasks dispatched, only a warning logged), and `cleanup_server` still runs
the emoji, role and channel phases to completion. -/
theorem c10_theorem :
    deleteWebhooks (Except.error PipelineErr.forbidden : Except PipelineErr (List ℕ))
        = Except.ok 0
    ∧ cleanupPhases (Except.error PipelineErr.forbidden : Except PipelineErr (List ℕ))
        = [Phase.webhooks, Phase.emoji, Phase.roles, Phase.channels] :=
  ⟨rfl, rfl⟩

end ServerCleanup
